import Mathlib

/-!
Verification of the query-cache engine in `src/cache/cache_manager.py`
(repository postgres-pgvector-slim).

The Python module is embedded shallowly:

* similarity scores and thresholds are rationals (`ℚ`) — the claims under
  study are about control flow and bookkeeping, never about floating-point
  rounding;
* the external PostgreSQL store is a pure `Store` value; the SQL functions
  the module calls (`find_similar_cached_query`, `get_cached_answer_details`,
  `record_cache_hit`, `add_cache_entry`, `cleanup_cache`,
  `populate_cache_from_existing`) live in a SQL file that is not part of
  `src/`, so they are modelled from the spec (each such definition says so in
  its doc comment);
* exceptions raised by the driver are modelled by a `Failures` script that
  says which store call raises; the engine's `try/except` blocks become
  explicit branches on that script;
* each engine operation also returns the list of store calls it issued, so
  that "never touches the store" claims are statable.
-/

/-- Digit-list parser shared by the embeddings of Python `float` and `int`:
`some` of the value when the list is nonempty and all digits, else `none`.
(String operations are carried out on `String.data` so that every definition
kernel-reduces on concrete inputs.) -/
def digitsToNat (cs : List Char) : Option Nat :=
  if cs.isEmpty then none
  else if cs.all Char.isDigit then
    some (cs.foldl (fun n c => n * 10 + (c.toNat - 48)) 0)
  else none

/-- Splits a character list at its first dot, if any. -/
def splitFirstDot : List Char → List Char × Option (List Char)
  | [] => ([], none)
  | c :: rest =>
    if c = '.' then ([], some rest)
    else
      let (pre, post) := splitFirstDot rest
      (c :: pre, post)

/-- Embeds Python `float(s)` on config-table values: an optional sign, an
integer part and an optional fraction part parse; anything else raises
(here `none`).  Exotic float syntax (exponents, `inf`, underscores) is not
produced by this repository and is treated as malformed. -/
def parse_float (s : String) : Option ℚ :=
  let (neg, cs) :=
    match s.data with
    | '-' :: rest => (true, rest)
    | cs => (false, cs)
  let (ipcs, fpcs?) := splitFirstDot cs
  match fpcs? with
  | none =>
    (digitsToNat ipcs).map (fun n => mkRat (if neg then -(n : Int) else (n : Int)) 1)
  | some fpcs =>
    match digitsToNat ipcs, digitsToNat fpcs with
    | some n, some f =>
      let num : Int := n * 10 ^ fpcs.length + f
      some (mkRat (if neg then -num else num) (10 ^ fpcs.length))
    | _, _ => none

/-- Embeds Python `int(s)`: optional sign followed by digits; anything else
raises (here `none`). -/
def parse_int (s : String) : Option Int :=
  match s.data with
  | '-' :: rest => (digitsToNat rest).map (fun n => -(n : Int))
  | cs => (digitsToNat cs).map (fun n => (n : Int))

/-- `CacheConfig` from `cache_manager.py` (pydantic model, frozen): the live
cache policy snapshot. -/
structure CacheConfig where
  similarity_threshold : ℚ
  cache_enabled : Bool
  max_cache_entries : Int
deriving Repr, DecidableEq

/-- The documented defaults of `CacheConfig` (threshold 0.85, enabled,
5000 entries). -/
def defaultCacheConfig : CacheConfig :=
  { similarity_threshold := mkRat 85 100
    cache_enabled := true
    max_cache_entries := 5000 }

/-- Embeds the dict comprehension
`config_dict = \x7brow["key"]: row["value"] for row in rows\x7d` followed by
`config_dict.get(k, default)`: the value of the LAST row with the given key
(later dict insertions overwrite earlier ones), or `none` when absent. -/
def dictGet (rows : List (String × String)) (k : String) : Option String :=
  (rows.reverse.find? (fun p => p.1 == k)).map (fun p => p.2)

/-- `float(config_dict.get("similarity_threshold", 0.85))`: the literal
default when the key is absent, otherwise the parse of the stored string
(`none` = the `float` call raised). -/
def parse_similarity_threshold (v : Option String) : Option ℚ :=
  match v with
  | none => some (mkRat 85 100)
  | some s => parse_float s

/-- `int(config_dict.get("max_cache_entries", 5000))`:  the literal default
when the key is absent, otherwise the parse of the stored string
(`none` = the `int` call raised). -/
def parse_max_cache_entries (v : Option String) : Option Int :=
  match v with
  | none => some 5000
  | some s => parse_int s

/-- `config_dict.get("cache_enabled", "true").lower() == "true"`: total — a
stored string value can never make this raise. -/
def parse_cache_enabled (v : Option String) : Bool :=
  ((v.getD "true").data.map Char.toLower) == "true".data

/-- Embeds `_load_config`'s construction of `CacheConfig` from the fetched
config rows.  The whole construction sits in one `try`: if parsing
`similarity_threshold` or `max_cache_entries` raises, the `except` branch
replaces the ENTIRE policy with `CacheConfig()` — all defaults, including
keys that parsed fine.  `cache_enabled` parsing cannot raise. -/
def load_config_rows (rows : List (String × String)) : CacheConfig :=
  match parse_similarity_threshold (dictGet rows "similarity_threshold"),
        parse_max_cache_entries (dictGet rows "max_cache_entries") with
  | some t, some m =>
    { similarity_threshold := t
      cache_enabled := parse_cache_enabled (dictGet rows "cache_enabled")
      max_cache_entries := m }
  | _, _ => defaultCacheConfig

/-- `CacheEntry` — a row of `askwealth.query_cache_embeddings` (§3 of the
spec).  `embedding = none` models a pending (backfilled) entry whose
`rephrased_query_embedding` is NULL; such entries are invisible to
similarity search.  `createdAt`/`lastHitAt` are logical timestamps drawn
from the store's clock. -/
structure CacheEntry where
  cache_id : String
  user_message_id : String
  assistant_message_id : String
  rephrased_query : String
  embedding : Option (List ℚ)
  hitCount : Nat
  createdAt : Nat
  lastHitAt : Option Nat
deriving Repr, DecidableEq

/-- Row shape returned by `askwealth.get_cached_answer_details`: the full
Q&A content resolved from the conversation store.  The structured
parts/annotations payloads are opaque to the engine and embedded as
strings. -/
structure AnswerRow where
  user_question : String
  assistant_answer : String
  user_parts : String
  assistant_parts : String
  user_annots : String
  assistant_annots : String
deriving Repr, DecidableEq

/-- A historical Q&A pair of the external conversation store, the input of
`populate_cache_from_existing`. -/
structure ConvPair where
  user_message_id : String
  assistant_message_id : String
  question : String
deriving Repr, DecidableEq

/-- The external PostgreSQL store as one pure value: the embedding
dimension of the `vector` column, the cache-entry table, the config
key/value table, the conversation-store join (`cache_id` to resolved Q&A
content), the historical pairs seen by backfill, a fresh-id source and a
logical clock for timestamps. -/
structure Store where
  dim : Nat
  entries : List CacheEntry
  config : List (String × String)
  qa : List (String × AnswerRow)
  history : List ConvPair
  nextId : Nat
  clock : Nat
deriving Repr, DecidableEq

/-- Row shape returned by `askwealth.find_similar_cached_query`. -/
structure CacheRow where
  cache_id : String
  user_message_id : String
  assistant_message_id : String
  rephrased_query : String
  similarity_score : ℚ
  cache_hits : Nat
deriving Repr, DecidableEq

/-- `CacheHit` from `cache_manager.py`: the result object assembled by
`check_cache`. -/
structure CacheHit where
  cache_id : String
  user_message_id : String
  assistant_message_id : String
  rephrased_query : String
  similarity_score : ℚ
  cache_hits : Nat
  user_question : String
  assistant_answer : String
  user_parts : String
  assistant_parts : String
  user_annots : String
  assistant_annots : String
deriving Repr, DecidableEq

/-- Which store calls raise in this run.  `asyncpg` exceptions (connection
loss, timeouts, SQL errors) are all caught by the engine's `try/except`
blocks; this script says, per call site, whether the call raises.
`writeFailsAt` is the index (among the writes actually issued) of the
config upsert that raises, if any. -/
structure Failures where
  connFails : Bool
  findFails : Bool
  answerFails : Bool
  recordFails : Bool
  addFails : Bool
  cleanupFails : Bool
  populateFails : Bool
  configReadFails : Bool
  writeFailsAt : Option Nat
deriving Repr, DecidableEq

/-- The no-failure script. -/
def noFailures : Failures :=
  { connFails := false, findFails := false, answerFails := false,
    recordFails := false, addFails := false, cleanupFails := false,
    populateFails := false, configReadFails := false, writeFailsAt := none }

/-- Store calls the engine can issue, recorded as a trace so that claims of
the form "does not touch the store" are statable. -/
inductive StoreCall where
  | findSimilar (emb : List ℚ) (thr : ℚ)
  | getAnswer (id : String)
  | recordHit (id : String)
  | addEntry (u a q : String) (emb : List ℚ)
  | configRead
  | configWrite (k v : String)
  | cleanupCall
  | populateCall
deriving Repr, DecidableEq

/-- A candidate entry for a lookup: non-pending, scored by `sim` against
the query embedding, and at or above the threshold. -/
def candidateEntries (sim : List ℚ → List ℚ → ℚ) (st : Store) (emb : List ℚ)
    (thr : ℚ) : List (CacheEntry × ℚ) :=
  st.entries.filterMap (fun e =>
    match e.embedding with
    | none => none
    | some v =>
      let s := sim emb v
      if thr ≤ s then some (e, s) else none)

/-- Ranking of lookup candidates (spec §4.2 step 3): higher score first; on
equal scores the larger `hitCount`; then the most recent creation. -/
def betterCandidate (a b : CacheEntry × ℚ) : Bool :=
  if b.2 < a.2 then true
  else if a.2 < b.2 then false
  else if b.1.hitCount < a.1.hitCount then true
  else if a.1.hitCount < b.1.hitCount then false
  else if b.1.createdAt < a.1.createdAt then true
  else false

/-- The best-ranked candidate of a list, if any. -/
def bestCandidate : List (CacheEntry × ℚ) → Option (CacheEntry × ℚ)
  | [] => none
  | c :: cs =>
    match bestCandidate cs with
    | none => some c
    | some b => if betterCandidate c b then some c else some b

/-- Modelled from the spec: `askwealth.find_similar_cached_query($1, $2)`
(a stored SQL function absent from `src/`) — "the single best-scoring
non-pending entry with score ≥ effective threshold" (§4.2 step 3, §6
`nearestMatch`), returning the entry's identity, its score and its current
(pre-increment) `cache_hits`. -/
def find_similar_cached_query (sim : List ℚ → List ℚ → ℚ) (st : Store)
    (emb : List ℚ) (thr : ℚ) : Option CacheRow :=
  (bestCandidate (candidateEntries sim st emb thr)).map (fun p =>
    { cache_id := p.1.cache_id
      user_message_id := p.1.user_message_id
      assistant_message_id := p.1.assistant_message_id
      rephrased_query := p.1.rephrased_query
      similarity_score := p.2
      cache_hits := p.1.hitCount })

/-- Modelled from the spec: `askwealth.get_cached_answer_details($1)` (a
stored SQL function absent from `src/`) — resolves the full Q&A content for
a cache entry from the conversation store, or `none` when the referenced
content cannot be resolved (§6 `resolveQAContent`). -/
def get_cached_answer_details (st : Store) (id : String) : Option AnswerRow :=
  (st.qa.find? (fun p => p.1 == id)).map (fun p => p.2)

/-- Modelled from the spec: `askwealth.record_cache_hit($1)` (a stored SQL
function absent from `src/`) — atomically increments the entry's hit
counter and stamps `lastHitAt` (§4.2 step 6, §6 `atomicIncrementHit`). -/
def record_cache_hit (st : Store) (id : String) : Store :=
  { st with
    entries := st.entries.map (fun e =>
      if e.cache_id == id then
        { e with hitCount := e.hitCount + 1, lastHitAt := some st.clock }
      else e)
    clock := st.clock + 1 }

/-- Modelled from the spec: `askwealth.add_cache_entry($1, $2, $3, $4)` (a
stored SQL function absent from `src/`) — inserts a fresh entry with
`hitCount = 0`, a non-pending embedding and `createdAt = now`, returning
its id (§4.3). -/
def add_cache_entry (st : Store) (u a q : String) (emb : List ℚ) :
    Option String × Store :=
  let id := "cache-" ++ toString st.nextId
  let e : CacheEntry :=
    { cache_id := id, user_message_id := u, assistant_message_id := a,
      rephrased_query := q, embedding := some emb, hitCount := 0,
      createdAt := st.clock, lastHitAt := none }
  (some id,
   { st with entries := st.entries ++ [e], nextId := st.nextId + 1,
             clock := st.clock + 1 })

/-- Embeds line 154 of `cache_manager.py`:
`threshold = similarity_threshold or self._config.similarity_threshold`.
Python `or` tests truthiness, so BOTH `None` AND `0.0` fall back to the
policy threshold. -/
def pyOrThreshold (override : Option ℚ) (policy : ℚ) : ℚ :=
  match override with
  | none => policy
  | some t => if t = 0 then policy else t

/-- Embeds `QueryCacheManager.check_cache`.  Arguments: the manager's
`_config` snapshot (`none` = never loaded), the similarity measure backing
the store's index, the failure script, the store, the query embedding and
the optional threshold override.  Returns the Python return value, the
store after the call, and the trace of store calls issued.  A `vector`
dimension mismatch makes the store's own call raise (pgvector rejects it);
the engine performs no dimension check of its own. -/
def check_cache (cfg : Option CacheConfig) (sim : List ℚ → List ℚ → ℚ)
    (fails : Failures) (st : Store) (emb : List ℚ) (thrOverride : Option ℚ) :
    Option CacheHit × Store × List StoreCall :=
  match cfg with
  | none => (none, st, [])
  | some c =>
    if !c.cache_enabled then (none, st, [])
    else
      let threshold := pyOrThreshold thrOverride c.similarity_threshold
      if fails.connFails then (none, st, [])
      else if fails.findFails ∨ emb.length ≠ st.dim then
        (none, st, [StoreCall.findSimilar emb threshold])
      else
        match find_similar_cached_query sim st emb threshold with
        | none => (none, st, [StoreCall.findSimilar emb threshold])
        | some row =>
          if fails.answerFails then
            (none, st,
             [StoreCall.findSimilar emb threshold, StoreCall.getAnswer row.cache_id])
          else
            match get_cached_answer_details st row.cache_id with
            | none =>
              (none, st,
               [StoreCall.findSimilar emb threshold, StoreCall.getAnswer row.cache_id])
            | some ans =>
              if fails.recordFails then
                (none, st,
                 [StoreCall.findSimilar emb threshold,
                  StoreCall.getAnswer row.cache_id,
                  StoreCall.recordHit row.cache_id])
              else
                (some
                  { cache_id := row.cache_id
                    user_message_id := row.user_message_id
                    assistant_message_id := row.assistant_message_id
                    rephrased_query := row.rephrased_query
                    similarity_score := row.similarity_score
                    cache_hits := row.cache_hits
                    user_question := ans.user_question
                    assistant_answer := ans.assistant_answer
                    user_parts := ans.user_parts
                    assistant_parts := ans.assistant_parts
                    user_annots := ans.user_annots
                    assistant_annots := ans.assistant_annots },
                 record_cache_hit st row.cache_id,
                 [StoreCall.findSimilar emb threshold,
                  StoreCall.getAnswer row.cache_id,
                  StoreCall.recordHit row.cache_id])

/-- Embeds `QueryCacheManager.add_to_cache`: policy gate, then one insert
via `add_cache_entry`; any raise is caught and returns `None`. -/
def add_to_cache (cfg : Option CacheConfig) (fails : Failures) (st : Store)
    (user_message_id assistant_message_id rephrased_query : String)
    (emb : List ℚ) : Option String × Store × List StoreCall :=
  match cfg with
  | none => (none, st, [])
  | some c =>
    if !c.cache_enabled then (none, st, [])
    else if fails.connFails then (none, st, [])
    else if fails.addFails ∨ emb.length ≠ st.dim then
      (none, st,
       [StoreCall.addEntry user_message_id assistant_message_id rephrased_query emb])
    else
      let (id?, st') :=
        add_cache_entry st user_message_id assistant_message_id rephrased_query emb
      (id?, st',
       [StoreCall.addEntry user_message_id assistant_message_id rephrased_query emb])

/-- Embeds `_load_config` as invoked on a live store: on any raise while
acquiring a connection or fetching the config rows, the `except` branch
installs `CacheConfig()` (all defaults); otherwise the parsed policy.
Returns the new `_config` snapshot and the calls issued.  `_load_config`
never raises to ITS caller: it catches everything itself. -/
def load_config (fails : Failures) (st : Store) : CacheConfig × List StoreCall :=
  if fails.connFails then (defaultCacheConfig, [])
  else if fails.configReadFails then (defaultCacheConfig, [StoreCall.configRead])
  else (load_config_rows st.config, [StoreCall.configRead])

/-- Embeds `hasattr(CacheConfig, key)` from `update_config`.  Under
pydantic v2 (the repository imports `ConfigDict`, which is v2-only) field
names are REMOVED from the model class namespace
(`delattr` in `pydantic._internal._fields.collect_fields`), so the check is
false for all three real config field names and for arbitrary unknown
keys; it is true only for pydantic `BaseModel` class attributes such as
`model_config` (the list below is the subset relevant to config keys — no
cache-config field name is among the class attributes). -/
def hasattrCacheConfig (k : String) : Bool :=
  k == "model_config" || k == "model_fields" || k == "model_json_schema"

/-- Upsert of one key/value row into the config table
(`INSERT ... ON CONFLICT (key) DO UPDATE`). -/
def upsertConfig (rows : List (String × String)) (k v : String) :
    List (String × String) :=
  if rows.any (fun p => p.1 == k) then
    rows.map (fun p => if p.1 == k then (k, v) else p)
  else rows ++ [(k, v)]

/-- The write loop of `update_config`: for each change whose key passes the
`hasattr` check, one upsert is issued (counted by `idx` against the failure
script); a raise aborts the loop with earlier writes already committed
(each `execute` autocommits).  Returns the final config rows, the writes
issued, and whether the loop aborted. -/
def runConfigWrites : List (String × String) → List (String × String) → Nat →
    Option Nat → List (String × String) × List StoreCall × Bool
  | rows, [], _, _ => (rows, [], false)
  | rows, (k, v) :: rest, idx, failAt =>
    if hasattrCacheConfig k then
      if failAt = some idx then (rows, [StoreCall.configWrite k v], true)
      else
        let (rows', calls, aborted) :=
          runConfigWrites (upsertConfig rows k v) rest (idx + 1) failAt
        (rows', StoreCall.configWrite k v :: calls, aborted)
    else
      runConfigWrites rows rest idx failAt

/-- Embeds `QueryCacheManager.update_config(**kwargs)`: the changes are the
kwargs with values already passed through `str(...)`.  Keys failing the
`hasattr` check are silently skipped.  After the loop the config is
reloaded (which itself never raises) and `True` is returned; any raise in
the loop or while acquiring the connection returns `False` with `_config`
untouched. -/
def update_config (cfg : Option CacheConfig) (fails : Failures) (st : Store)
    (changes : List (String × String)) :
    Bool × Option CacheConfig × Store × List StoreCall :=
  if fails.connFails then (false, cfg, st, [])
  else
    let (rows', writes, aborted) :=
      runConfigWrites st.config changes 0 fails.writeFailsAt
    let st' := { st with config := rows' }
    if aborted then (false, cfg, st', writes)
    else
      let (newCfg, loadCalls) := load_config fails st'
      (true, some newCfg, st', writes ++ loadCalls)

/-- Worst-first eviction key (spec §4.4): `hitCount` ascending, then
`lastHitAt` ascending with never-hit entries ranked by `createdAt`. -/
def evictKey (e : CacheEntry) : Nat × Nat :=
  (e.hitCount, match e.lastHitAt with | some t => t | none => e.createdAt)

/-- `true` when `a` is evicted no later than `b` under the worst-first
order. -/
def evictLE (a b : CacheEntry) : Bool :=
  if (evictKey a).1 < (evictKey b).1 then true
  else if (evictKey b).1 < (evictKey a).1 then false
  else decide ((evictKey a).2 ≤ (evictKey b).2)

/-- Insertion into a worst-first-sorted list. -/
def insertEvict (e : CacheEntry) : List CacheEntry → List CacheEntry
  | [] => [e]
  | x :: xs => if evictLE e x then e :: x :: xs else x :: insertEvict e xs

/-- Worst-first insertion sort of eviction candidates. -/
def sortEvict (l : List CacheEntry) : List CacheEntry :=
  l.foldr insertEvict []

/-- Modelled from the spec: `askwealth.cleanup_cache()` (a stored SQL
function absent from `src/`) — if the non-pending entry count exceeds the
policy's `max_cache_entries` (read from the config table), hard-deletes the
excess entries worst-first and returns the number removed; otherwise a
no-op returning 0 (§4.4). -/
def cleanup_cache_fn (st : Store) : Int × Store :=
  let maxE := (load_config_rows st.config).max_cache_entries
  let nonPending := st.entries.filter (fun e => e.embedding.isSome)
  let total : Int := nonPending.length
  if total ≤ maxE then (0, st)
  else
    let excess := (total - maxE).toNat
    let victimIds := ((sortEvict nonPending).take excess).map (fun e => e.cache_id)
    (excess,
     { st with entries :=
         st.entries.filter (fun e => !(victimIds.contains e.cache_id)) })

/-- Embeds `QueryCacheManager.cleanup_cache`: any raise is caught and 0 is
returned (`deleted_count or 0` also maps a NULL result to 0). -/
def cleanup_cache (fails : Failures) (st : Store) :
    Int × Store × List StoreCall :=
  if fails.connFails then (0, st, [])
  else if fails.cleanupFails then (0, st, [StoreCall.cleanupCall])
  else
    let (n, st') := cleanup_cache_fn st
    (n, st', [StoreCall.cleanupCall])

/-- Modelled from the spec: `askwealth.populate_cache_from_existing()` (a
stored SQL function absent from `src/`) — inserts one pending entry
(`embedding` NULL, `hitCount = 0`) per historical Q&A pair that has no
cache entry yet, keyed by the assistant-message identifier so a second run
is a no-op; returns the number inserted (§4.5). -/
def populate_cache_from_existing (st : Store) : Int × Store :=
  st.history.foldl
    (fun acc p =>
      let n := acc.1
      let s := acc.2
      if s.entries.any (fun e => e.assistant_message_id == p.assistant_message_id)
      then (n, s)
      else
        let e : CacheEntry :=
          { cache_id := "cache-" ++ toString s.nextId,
            user_message_id := p.user_message_id,
            assistant_message_id := p.assistant_message_id,
            rephrased_query := p.question, embedding := none, hitCount := 0,
            createdAt := s.clock, lastHitAt := none }
        (n + 1,
         { s with entries := s.entries ++ [e], nextId := s.nextId + 1,
                  clock := s.clock + 1 }))
    ((0 : Int), st)

/-- Embeds `QueryCacheManager.populate_from_existing`: any raise is caught
and 0 is returned (`populated_count or 0` also maps NULL to 0). -/
def populate_from_existing (fails : Failures) (st : Store) :
    Int × Store × List StoreCall :=
  if fails.connFails then (0, st, [])
  else if fails.populateFails then (0, st, [StoreCall.populateCall])
  else
    let (n, st') := populate_cache_from_existing st
    (n, st', [StoreCall.populateCall])

/-- The answer produced by the caller's LLM pipeline on a miss
(`llm_processor_func`'s result, reduced to the fields
`process_query_with_cache` reads). -/
structure LlmResult where
  answer : String
  assistant_message_id : String
deriving Repr, DecidableEq

/-- `CachedResponse` from `cache_manager.py`.  `processing_time_ms` is
wall-clock time and is not embedded. -/
structure CachedResponse where
  answer : String
  source : String
  cache_id : Option String
  similarity_score : Option ℚ
  cache_hits : Option Nat
deriving Repr, DecidableEq

/-- Embeds `process_query_with_cache`: check the cache (no threshold
override); on a hit report the cached answer with
`cache_hits = hit.cache_hits + 1` ("+1 for this hit"); on a miss run the
LLM and best-effort insert the new pair. -/
def process_query_with_cache (cfg : Option CacheConfig)
    (sim : List ℚ → List ℚ → ℚ) (fails : Failures) (st : Store)
    (rephrased_query : String) (emb : List ℚ) (user_message_id : String)
    (llm : LlmResult) : CachedResponse × Store :=
  let r := check_cache cfg sim fails st emb none
  match r.1 with
  | some hit =>
    ({ answer := hit.assistant_answer, source := "cache",
       cache_id := some hit.cache_id,
       similarity_score := some hit.similarity_score,
       cache_hits := some (hit.cache_hits + 1) }, r.2.1)
  | none =>
    let a := add_to_cache cfg fails r.2.1 user_message_id
      llm.assistant_message_id rephrased_query emb
    ({ answer := llm.answer, source := "llm", cache_id := a.1,
       similarity_score := none, cache_hits := none }, a.2.1)

/-- First entry with the given `cache_id` and its hit counter, as the store
would report it. -/
def hitCountOf (st : Store) (id : String) : Option Nat :=
  (st.entries.find? (fun e => e.cache_id == id)).map (fun e => e.hitCount)

/-- Fixture: the cache entry `E` of the spec's end-to-end scenario
(`hitCount = 3`). -/
def entE : CacheEntry :=
  { cache_id := "E", user_message_id := "u1", assistant_message_id := "a1",
    rephrased_query := "q1", embedding := some [1, 0], hitCount := 3,
    createdAt := 0, lastHitAt := none }

/-- Fixture: resolvable answer content for entry `E`. -/
def ansE : AnswerRow :=
  { user_question := "uq", assistant_answer := "cached answer",
    user_parts := "up", assistant_parts := "ap", user_annots := "un",
    assistant_annots := "an" }

/-- Fixture: a two-dimensional store holding entry `E` with resolvable
content. -/
def stE : Store :=
  { dim := 2, entries := [entE], config := [], qa := [("E", ansE)],
    history := [], nextId := 7, clock := 10 }

/-- Fixture: like `stE` but with no resolvable content for `E` (the
conversation-store join comes back empty). -/
def stEbroken : Store :=
  { dim := 2, entries := [entE], config := [], qa := [], history := [],
    nextId := 7, clock := 10 }

/-- Fixture: a store whose config table holds a well-formed
`cache_enabled = false` row. -/
def stCfg : Store :=
  { dim := 2, entries := [], config := [("cache_enabled", "false")], qa := [],
    history := [], nextId := 0, clock := 0 }

/-- Fixture similarity measure: every pair of vectors scores 0.9. -/
def simNine : List ℚ → List ℚ → ℚ := fun _ _ => mkRat 9 10

/-- Fixture similarity measure: every pair of vectors scores 0.5. -/
def simHalf : List ℚ → List ℚ → ℚ := fun _ _ => mkRat 1 2

/-- Fixture: the `CacheRow` that `find_similar_cached_query` reports for
entry `E` at score 0.9. -/
def rowE : CacheRow :=
  { cache_id := "E", user_message_id := "u1", assistant_message_id := "a1",
    rephrased_query := "q1", similarity_score := mkRat 9 10, cache_hits := 3 }

/-- Fixture: the `CacheRow` that `find_similar_cached_query` reports for
entry `E` at score 0.5. -/
def rowEhalf : CacheRow :=
  { cache_id := "E", user_message_id := "u1", assistant_message_id := "a1",
    rephrased_query := "q1", similarity_score := mkRat 1 2, cache_hits := 3 }

/-- Fixture: a disabled policy. -/
def cfgOff : CacheConfig :=
  { similarity_threshold := mkRat 85 100, cache_enabled := false,
    max_cache_entries := 5000 }

/-- Fixture: a failure script where connection acquisition raises. -/
def connFailure : Failures := { noFailures with connFails := true }

/-- Fixture: a failure script where the similarity-search call raises. -/
def findFailure : Failures := { noFailures with findFails := true }

/-- Fixture: a failure script where the insert call raises. -/
def addFailure : Failures := { noFailures with addFails := true }

/-- Fixture: a failure script where the eviction call raises. -/
def cleanupFailure : Failures := { noFailures with cleanupFails := true }

/-- Fixture: a failure script where the backfill call raises. -/
def populateFailure : Failures := { noFailures with populateFails := true }

/-- Fixture: an LLM result used on the miss path. -/
def llmR : LlmResult := { answer := "llm answer", assistant_message_id := "am" }

/-- The best-ranked candidate is one of the candidates. -/
theorem bestCandidate_mem :
    ∀ {l : List (CacheEntry × ℚ)} {p : CacheEntry × ℚ},
      bestCandidate l = some p → p ∈ l := by
  intro l
  induction l with
  | nil => intro p h; cases h
  | cons c cs ih =>
    intro p h
    simp only [bestCandidate] at h
    cases hb : bestCandidate cs with
    | none =>
      rw [hb] at h
      cases h
      exact List.mem_cons_self _ _
    | some b =>
      rw [hb] at h
      have h2 : (if betterCandidate c b = true then some c else some b) = some p := h
      by_cases hcb : betterCandidate c b = true
      · rw [if_pos hcb] at h2
        cases h2
        exact List.mem_cons_self _ _
      · rw [if_neg hcb] at h2
        cases h2
        exact List.mem_cons_of_mem _ (ih hb)

/-- A row reported by the similarity search comes from a stored entry and
carries that entry's identity and CURRENT hit counter. -/
theorem find_similar_mem {sim : List ℚ → List ℚ → ℚ} {st : Store}
    {emb : List ℚ} {thr : ℚ} {row : CacheRow}
    (h : find_similar_cached_query sim st emb thr = some row) :
    ∃ e, e ∈ st.entries ∧ e.cache_id = row.cache_id ∧
      e.hitCount = row.cache_hits := by
  unfold find_similar_cached_query at h
  rcases Option.map_eq_some'.mp h with ⟨p, hbest, hrow⟩
  have hp := bestCandidate_mem hbest
  unfold candidateEntries at hp
  rcases List.mem_filterMap.mp hp with ⟨e, he, hfe⟩
  cases hemb : e.embedding with
  | none => rw [hemb] at hfe; cases hfe
  | some v =>
    rw [hemb] at hfe
    simp only [] at hfe
    split at hfe
    · cases hfe
      subst hrow
      exact ⟨e, he, rfl, rfl⟩
    · cases hfe

/-- With unique entry ids, looking up a stored entry by its id finds that
entry. -/
theorem find_entry_nodup {l : List CacheEntry} {e : CacheEntry}
    (hnd : (l.map (fun x => x.cache_id)).Nodup) (he : e ∈ l) :
    l.find? (fun x => x.cache_id == e.cache_id) = some e := by
  induction l with
  | nil => cases he
  | cons x xs ih =>
    rcases List.mem_cons.mp he with rfl | hxs
    · simp [List.find?]
    · have hx : (x.cache_id == e.cache_id) = false := by
        rcases List.nodup_cons.mp hnd with ⟨hnotin, _⟩
        refine beq_eq_false_iff_ne.mpr (fun hEq => hnotin ?_)
        show x.cache_id ∈ List.map (fun y => y.cache_id) xs
        rw [hEq]
        exact List.mem_map_of_mem _ hxs
      rw [List.find?]
      rw [hx]
      exact ih (List.nodup_cons.mp hnd).2 hxs

/-- `record_cache_hit` moves the looked-up hit counter of the recorded id
up by exactly one. -/
theorem find_map_record (id : String) (clk : Nat) :
    ∀ l : List CacheEntry,
      ((l.map (fun e =>
          if e.cache_id == id then
            { e with hitCount := e.hitCount + 1, lastHitAt := some clk }
          else e)).find? (fun e => e.cache_id == id)).map (fun e => e.hitCount)
        = ((l.find? (fun e => e.cache_id == id)).map
            (fun e => e.hitCount)).map (fun n => n + 1) := by
  intro l
  induction l with
  | nil => rfl
  | cons x xs ih =>
    cases hx : (x.cache_id == id) with
    | true =>
      simp only [List.map_cons, List.find?, hx, eq_self_iff_true, if_true]
      rfl
    | false =>
      simp only [List.map_cons, List.find?, hx, Bool.false_eq_true, if_false]
      exact ih

/-- Store-level form of `find_map_record`. -/
theorem hitCountOf_record (st : Store) (id : String) :
    hitCountOf (record_cache_hit st id) id =
      (hitCountOf st id).map (fun n => n + 1) := by
  unfold hitCountOf record_cache_hit
  exact find_map_record id st.clock st.entries

/-- C10: before any configuration has been loaded (the manager's `_config`
snapshot is still absent because `initialize` never ran), `check_cache`
returns Miss (`none`) and `add_to_cache` returns `None`, the store is left
unchanged, and no store call is issued — an uninitialized manager behaves
like a disabled cache. -/
theorem C10_uninitialized_noop (sim : List ℚ → List ℚ → ℚ) (fails : Failures)
    (st : Store) (emb : List ℚ) (ov : Option ℚ) (u a q : String)
    (e2 : List ℚ) :
    check_cache none sim fails st emb ov = (none, st, []) ∧
    add_to_cache none fails st u a q e2 = (none, st, []) :=
  ⟨rfl, rfl⟩

/-- C2: with the live policy disabled (`cache_enabled = false`),
`check_cache` returns Miss and `add_to_cache` returns `None`, for every
store state, and neither operation issues any query to the external
store (empty call trace, store unchanged). -/
theorem C2_disabled_noop (c : CacheConfig) (sim : List ℚ → List ℚ → ℚ)
    (fails : Failures) (st : Store) (emb : List ℚ) (ov : Option ℚ)
    (u a q : String) (e2 : List ℚ)
    (hdis : c.cache_enabled = false) :
    check_cache (some c) sim fails st emb ov = (none, st, []) ∧
    add_to_cache (some c) fails st u a q e2 = (none, st, []) := by
  constructor
  · simp [check_cache, hdis]
  · simp [add_to_cache, hdis]

/-- C2 witness at a concrete disabled policy and populated store. -/
theorem C2_witness :
    check_cache (some cfgOff) simNine noFailures stE [1, 0] none =
      (none, stE, []) ∧
    add_to_cache (some cfgOff) noFailures stE "u" "a" "q" [1, 0] =
      (none, stE, []) :=
  C2_disabled_noop cfgOff simNine noFailures stE [1, 0] none "u" "a" "q"
    [1, 0] (by decide)

/-- C3: when the similarity search returns a candidate but resolving the
full answer content fails (`get_cached_answer_details` returns none),
`check_cache` returns Miss, the store is unchanged (so the entry's
`hitCount` is not incremented), and the trace contains no
`record_cache_hit` call — it stops at the answer lookup. -/
theorem C3_resolution_failure_is_miss (c : CacheConfig)
    (sim : List ℚ → List ℚ → ℚ) (fails : Failures) (st : Store)
    (emb : List ℚ) (ov : Option ℚ) (row : CacheRow)
    (hen : c.cache_enabled = true) (hconn : fails.connFails = false)
    (hfind : fails.findFails = false) (hdim : emb.length = st.dim)
    (hrow : find_similar_cached_query sim st emb
      (pyOrThreshold ov c.similarity_threshold) = some row)
    (hans : fails.answerFails = false)
    (hqa : get_cached_answer_details st row.cache_id = none) :
    check_cache (some c) sim fails st emb ov =
      (none, st,
       [StoreCall.findSimilar emb (pyOrThreshold ov c.similarity_threshold),
        StoreCall.getAnswer row.cache_id]) := by
  unfold check_cache
  simp [hen, hconn, hfind, hdim, hrow, hans, hqa]

/-- C3 witness: concrete store where `E` matches but its content cannot be
resolved. -/
theorem C3_witness :
    check_cache (some defaultCacheConfig) simNine noFailures stEbroken
      [1, 0] none =
      (none, stEbroken,
       [StoreCall.findSimilar [1, 0] (mkRat 85 100), StoreCall.getAnswer "E"]) :=
  C3_resolution_failure_is_miss defaultCacheConfig simNine noFailures
    stEbroken [1, 0] none rowE rfl rfl rfl (by decide) (by decide) rfl
    (by decide)

/-- C7: on any failure of the external store or index (connection
acquisition, the similarity search, the answer resolution or the
hit-recording call raising; insert raising), `check_cache` returns Miss
and `add_to_cache` returns `None` — no exception propagates to the
caller. -/
theorem C7_degrade_on_failure (cfg : Option CacheConfig)
    (sim : List ℚ → List ℚ → ℚ) (fails : Failures) (st : Store)
    (emb : List ℚ) (ov : Option ℚ) (u a q : String) (e2 : List ℚ) :
    ((fails.connFails = true ∨ fails.findFails = true ∨
        fails.answerFails = true ∨ fails.recordFails = true) →
      (check_cache cfg sim fails st emb ov).1 = none) ∧
    ((fails.connFails = true ∨ fails.addFails = true) →
      (add_to_cache cfg fails st u a q e2).1 = none) := by
  constructor
  · intro hf
    cases cfg with
    | none => rfl
    | some c =>
      unfold check_cache
      by_cases hen : c.cache_enabled = true
      · simp only [hen]
        rcases hf with h | h | h | h <;> simp only [h] <;> (repeat' split) <;>
          simp_all
      · have hen' : c.cache_enabled = false := by
          cases hcc : c.cache_enabled
          · rfl
          · exact absurd hcc hen
        simp [hen']
  · intro hf
    cases cfg with
    | none => rfl
    | some c =>
      unfold add_to_cache
      by_cases hen : c.cache_enabled = true
      · simp only [hen]
        rcases hf with h | h <;> simp only [h] <;> (repeat' split) <;> simp_all
      · have hen' : c.cache_enabled = false := by
          cases hcc : c.cache_enabled
          · rfl
          · exact absurd hcc hen
        simp [hen']

/-- C7 witness: a raising similarity search degrades the lookup to Miss; a
raising insert degrades to `None`. -/
theorem C7_witness :
    (check_cache (some defaultCacheConfig) simNine findFailure stE [1, 0]
      none).1 = none ∧
    (add_to_cache (some defaultCacheConfig) addFailure stE "u" "a" "q"
      [1, 0]).1 = none :=
  ⟨(C7_degrade_on_failure (some defaultCacheConfig) simNine findFailure stE
      [1, 0] none "u" "a" "q" [1, 0]).1 (Or.inr (Or.inl rfl)),
   (C7_degrade_on_failure (some defaultCacheConfig) simNine addFailure stE
      [1, 0] none "u" "a" "q" [1, 0]).2 (Or.inr rfl)⟩

/-- C8 counterexample: the claim says a mis-dimensioned embedding makes
`check_cache` return Miss WITHOUT touching the store (engine-side
dimension check before any store access) and makes `add_to_cache` signal
`InvalidInput`.  In the code there is no dimension check at all: with a
1-dimensional query against a 2-dimensional store, both operations DO
issue their store call (non-empty trace) and merely degrade to
Miss/`None` when that call fails, with no distinct `InvalidInput`
signal. -/
theorem C8_counterexample :
    (check_cache (some defaultCacheConfig) simNine noFailures stE [1]
      none).2.2 ≠ [] ∧
    (check_cache (some defaultCacheConfig) simNine noFailures stE [1]
      none).1 = none ∧
    (add_to_cache (some defaultCacheConfig) noFailures stE "u" "a" "q"
      [1]).2.2 ≠ [] ∧
    (add_to_cache (some defaultCacheConfig) noFailures stE "u" "a" "q"
      [1]).1 = none := by decide

/-- C8 amended: the engine performs no dimension validation and signals no
`InvalidInput`; a mis-dimensioned embedding is passed to the store, whose
call fails there, and the failure is caught: `check_cache` returns Miss
and `add_to_cache` returns `None`, each after issuing its store call,
with the store unchanged. -/
theorem C8_no_dim_validation (c : CacheConfig) (sim : List ℚ → List ℚ → ℚ)
    (fails : Failures) (st : Store) (emb : List ℚ) (ov : Option ℚ)
    (u a q : String)
    (hen : c.cache_enabled = true) (hconn : fails.connFails = false)
    (hdim : emb.length ≠ st.dim) :
    check_cache (some c) sim fails st emb ov =
      (none, st,
       [StoreCall.findSimilar emb (pyOrThreshold ov c.similarity_threshold)]) ∧
    add_to_cache (some c) fails st u a q emb =
      (none, st, [StoreCall.addEntry u a q emb]) := by
  constructor
  · unfold check_cache
    simp [hen, hconn, hdim]
  · unfold add_to_cache
    simp [hen, hconn, hdim]

/-- C8 witness at a concrete mis-dimensioned embedding. -/
theorem C8_witness :
    check_cache (some defaultCacheConfig) simNine noFailures stE [1] none =
      (none, stE, [StoreCall.findSimilar [1] (mkRat 85 100)]) ∧
    add_to_cache (some defaultCacheConfig) noFailures stE "u" "a" "q" [1] =
      (none, stE, [StoreCall.addEntry "u" "a" "q" [1]]) :=
  C8_no_dim_validation defaultCacheConfig simNine noFailures stE [1] none
    "u" "a" "q" rfl rfl (by decide)

/-- C1 counterexample: the claim says every override in [0,1], including
0.0, is used as the effective threshold.  With override 0.0 the code's
`similarity_threshold or self._config.similarity_threshold` treats 0.0 as
falsy: the search is issued with the policy threshold 0.85 (≠ 0) and the
lookup misses, even though a search at threshold 0 would have found the
stored entry (similarity 0.5). -/
theorem C1_counterexample :
    (check_cache (some defaultCacheConfig) simHalf noFailures stE [1, 0]
      (some 0)).2.2 = [StoreCall.findSimilar [1, 0] (mkRat 85 100)] ∧
    mkRat 85 100 ≠ (0 : ℚ) ∧
    (check_cache (some defaultCacheConfig) simHalf noFailures stE [1, 0]
      (some 0)).1 = none ∧
    find_similar_cached_query simHalf stE [1, 0] 0 = some rowEhalf := by
  decide

/-- C1 amended: the similarity search is always issued with
`pyOrThreshold override policy`: a NONZERO override is used as the
effective threshold, while a missing override — or an override equal to
0.0, which Python's `or` treats as falsy — falls back to the policy's
`similarity_threshold`. -/
theorem C1_threshold_resolution (c : CacheConfig)
    (sim : List ℚ → List ℚ → ℚ) (fails : Failures) (st : Store)
    (emb : List ℚ) (ov : Option ℚ)
    (hen : c.cache_enabled = true) (hconn : fails.connFails = false) :
    (∃ rest, (check_cache (some c) sim fails st emb ov).2.2 =
        StoreCall.findSimilar emb (pyOrThreshold ov c.similarity_threshold)
          :: rest) ∧
    (∀ t, ov = some t → t ≠ 0 →
      pyOrThreshold ov c.similarity_threshold = t) ∧
    ((ov = none ∨ ov = some 0) →
      pyOrThreshold ov c.similarity_threshold = c.similarity_threshold) := by
  refine ⟨?_, ?_, ?_⟩
  · unfold check_cache
    simp only [hen, hconn]
    (repeat' split) <;> first
      | exact ⟨_, rfl⟩
      | simp_all
  · intro t ht hnz
    subst ht
    show (if t = 0 then c.similarity_threshold else t) = t
    rw [if_neg hnz]
  · rintro (rfl | rfl)
    · rfl
    · show (if (0 : ℚ) = 0 then c.similarity_threshold else 0) =
        c.similarity_threshold
      rw [if_pos rfl]

/-- C1 witness: a nonzero override (0.5) is used; a 0.0 override and a
missing override resolve to the policy threshold. -/
theorem C1_witness :
    pyOrThreshold (some (mkRat 1 2)) (mkRat 85 100) = mkRat 1 2 ∧
    pyOrThreshold (some 0) (mkRat 85 100) = mkRat 85 100 :=
  ⟨(C1_threshold_resolution defaultCacheConfig simHalf noFailures stE [1, 0]
      (some (mkRat 1 2)) rfl rfl).2.1 (mkRat 1 2) rfl (by decide),
   (C1_threshold_resolution defaultCacheConfig simHalf noFailures stE [1, 0]
      (some 0) rfl rfl).2.2 (Or.inr rfl)⟩

/-- C4: on a successful hit the returned `CacheHit` carries the entry's
PRE-increment hit counter (the counter the search reported), the stored
counter afterwards is that value plus one, and
`process_query_with_cache` reports the post-increment value by adding
one. -/
theorem C4_pre_increment (c : CacheConfig) (sim : List ℚ → List ℚ → ℚ)
    (fails : Failures) (st : Store) (emb : List ℚ) (ov : Option ℚ)
    (row : CacheRow) (ans : AnswerRow)
    (hen : c.cache_enabled = true) (hconn : fails.connFails = false)
    (hfind : fails.findFails = false) (hdim : emb.length = st.dim)
    (hrow : find_similar_cached_query sim st emb
      (pyOrThreshold ov c.similarity_threshold) = some row)
    (hans : fails.answerFails = false)
    (hqa : get_cached_answer_details st row.cache_id = some ans)
    (hrec : fails.recordFails = false)
    (hnodup : (st.entries.map (fun e => e.cache_id)).Nodup) :
    ((check_cache (some c) sim fails st emb ov).1.map
      (fun h => h.cache_hits) = some row.cache_hits) ∧
    hitCountOf st row.cache_id = some row.cache_hits ∧
    hitCountOf (check_cache (some c) sim fails st emb ov).2.1 row.cache_id =
      some (row.cache_hits + 1) ∧
    (ov = none → ∀ rq um llm,
      (process_query_with_cache (some c) sim fails st rq emb um
        llm).1.cache_hits = some (row.cache_hits + 1)) := by
  have hred : check_cache (some c) sim fails st emb ov =
      (some
        { cache_id := row.cache_id
          user_message_id := row.user_message_id
          assistant_message_id := row.assistant_message_id
          rephrased_query := row.rephrased_query
          similarity_score := row.similarity_score
          cache_hits := row.cache_hits
          user_question := ans.user_question
          assistant_answer := ans.assistant_answer
          user_parts := ans.user_parts
          assistant_parts := ans.assistant_parts
          user_annots := ans.user_annots
          assistant_annots := ans.assistant_annots },
       record_cache_hit st row.cache_id,
       [StoreCall.findSimilar emb (pyOrThreshold ov c.similarity_threshold),
        StoreCall.getAnswer row.cache_id,
        StoreCall.recordHit row.cache_id]) := by
    unfold check_cache
    simp [hen, hconn, hfind, hdim, hrow, hans, hqa, hrec]
  obtain ⟨e, he, hid, hcnt⟩ := find_similar_mem hrow
  have hfind_e : st.entries.find? (fun x => x.cache_id == row.cache_id) =
      some e := by
    rw [← hid]
    exact find_entry_nodup hnodup he
  have h2 : hitCountOf st row.cache_id = some row.cache_hits := by
    unfold hitCountOf
    rw [hfind_e]
    simp [hcnt]
  refine ⟨?_, h2, ?_, ?_⟩
  · rw [hred]
    rfl
  · rw [hred]
    show hitCountOf (record_cache_hit st row.cache_id) row.cache_id =
      some (row.cache_hits + 1)
    rw [hitCountOf_record, h2]
    rfl
  · intro hov rq um llm
    subst hov
    simp [process_query_with_cache, hred]

/-- C4 witness: the spec's end-to-end scenario — entry `E` with
`hitCount = 3` is hit at similarity 0.9; the hit reports 3, the store then
holds 4, and the integration layer reports 4. -/
theorem C4_witness :
    ((check_cache (some defaultCacheConfig) simNine noFailures stE [1, 0]
      none).1.map (fun h => h.cache_hits) = some 3) ∧
    hitCountOf stE "E" = some 3 ∧
    hitCountOf (check_cache (some defaultCacheConfig) simNine noFailures stE
      [1, 0] none).2.1 "E" = some 4 ∧
    (process_query_with_cache (some defaultCacheConfig) simNine noFailures
      stE "rq" [1, 0] "um" llmR).1.cache_hits = some 4 := by
  obtain ⟨h1, h2, h3, h4⟩ := C4_pre_increment defaultCacheConfig simNine
    noFailures stE [1, 0] none rowE ansE rfl rfl rfl (by decide) (by decide)
    rfl (by decide) rfl (by decide)
  exact ⟨h1, h2, h3, h4 rfl "rq" "um" llmR⟩

/-- C5 counterexample: the claim says a malformed value for one key falls
back to the default FOR THAT KEY ONLY, keeping the other keys' newly
loaded values.  With `similarity_threshold = "abc"` malformed and
well-formed `cache_enabled = "false"`, `max_cache_entries = "100"`, the
load yields the ENTIRE default policy — `cache_enabled` comes back `true`
and `max_cache_entries` 5000, discarding the well-formed loaded values
(`"false"` parses to `false`, `"100"` parses to 100). -/
theorem C5_counterexample :
    load_config_rows [("similarity_threshold", "abc"),
        ("cache_enabled", "false"), ("max_cache_entries", "100")] =
      defaultCacheConfig ∧
    defaultCacheConfig.cache_enabled = true ∧
    defaultCacheConfig.max_cache_entries = 5000 ∧
    parse_cache_enabled (some "false") = false ∧
    parse_int "100" = some 100 := by decide

/-- C5 amended: a malformed stored value for `similarity_threshold` or
`max_cache_entries` makes the ENTIRE policy revert to defaults (the whole
construction sits in one `try`); only when both parse does the policy
carry the per-key loaded values.  `cache_enabled` cannot fail to parse —
any string other than case-insensitive "true" simply reads as `false`. -/
theorem C5_whole_policy_fallback (rows : List (String × String)) :
    ((parse_similarity_threshold (dictGet rows "similarity_threshold") =
        none ∨
      parse_max_cache_entries (dictGet rows "max_cache_entries") = none) →
      load_config_rows rows = defaultCacheConfig) ∧
    (∀ t m,
      parse_similarity_threshold (dictGet rows "similarity_threshold") =
        some t →
      parse_max_cache_entries (dictGet rows "max_cache_entries") = some m →
      load_config_rows rows =
        { similarity_threshold := t
          cache_enabled := parse_cache_enabled (dictGet rows "cache_enabled")
          max_cache_entries := m }) := by
  constructor
  · rintro (h | h)
    · unfold load_config_rows
      rw [h]
    · unfold load_config_rows
      rw [h]
      cases parse_similarity_threshold
        (dictGet rows "similarity_threshold") <;> rfl
  · intro t m ht hm
    unfold load_config_rows
    rw [ht, hm]

/-- C5 witness: a malformed threshold collapses the whole policy to
defaults; a fully well-formed load carries the per-key values. -/
theorem C5_witness :
    load_config_rows [("similarity_threshold", "abc")] =
      defaultCacheConfig ∧
    load_config_rows [("similarity_threshold", "0.5"),
        ("max_cache_entries", "100")] =
      { similarity_threshold := mkRat 1 2
        cache_enabled := true
        max_cache_entries := 100 } := by
  constructor
  · exact (C5_whole_policy_fallback [("similarity_threshold", "abc")]).1
      (Or.inl (by decide))
  · have h := (C5_whole_policy_fallback [("similarity_threshold", "0.5"),
      ("max_cache_entries", "100")]).2 (mkRat 1 2) 100 (by decide) (by decide)
    exact h.trans (by decide)

/-- C6 counterexample: the claim says a change set containing an
unrecognized key signals `InvalidConfigKey` and persists none of the
batch.  The call with `\x7bsimilarity_threshold: "0.5", bogus_key: "1"\x7d`
signals nothing — it returns `True` — and persists nothing either: the
config table still holds exactly its prior row, with no
`similarity_threshold` row written (under pydantic v2 even the documented
key fails the `hasattr(CacheConfig, key)` guard). -/
theorem C6_counterexample :
    (update_config (some defaultCacheConfig) noFailures stCfg
      [("similarity_threshold", "0.5"), ("bogus_key", "1")]).1 = true ∧
    (update_config (some defaultCacheConfig) noFailures stCfg
      [("similarity_threshold", "0.5"),
       ("bogus_key", "1")]).2.2.1.config = [("cache_enabled", "false")] ∧
    dictGet [("cache_enabled", "false")] "similarity_threshold" = none := by
  decide

/-- C6 amended: `update_config` never signals `InvalidConfigKey`; keys
failing the `hasattr(CacheConfig, key)` test — which under pydantic v2
includes the three documented config keys themselves, as pydantic removes
field names from the model class — are silently skipped.  For a batch of
such keys nothing is persisted: the call just reloads the policy from the
unchanged config table and returns `True`. -/
theorem C6_update_config_never_rejects (cfg : Option CacheConfig)
    (fails : Failures) (st : Store) (changes : List (String × String))
    (hconn : fails.connFails = false) (hread : fails.configReadFails = false)
    (hkeys : ∀ p ∈ changes,
      p.1 = "similarity_threshold" ∨ p.1 = "cache_enabled" ∨
      p.1 = "max_cache_entries" ∨ hasattrCacheConfig p.1 = false) :
    hasattrCacheConfig "similarity_threshold" = false ∧
    hasattrCacheConfig "cache_enabled" = false ∧
    hasattrCacheConfig "max_cache_entries" = false ∧
    update_config cfg fails st changes =
      (true, some (load_config_rows st.config), st,
       [StoreCall.configRead]) := by
  have hall : ∀ cs, (∀ p ∈ cs, p.1 = "similarity_threshold" ∨
      p.1 = "cache_enabled" ∨ p.1 = "max_cache_entries" ∨
      hasattrCacheConfig p.1 = false) →
      ∀ rows idx, runConfigWrites rows cs idx fails.writeFailsAt =
        (rows, [], false) := by
    intro cs
    induction cs with
    | nil => intro _ rows idx; rfl
    | cons pr rest ih =>
      intro hcs rows idx
      have hpr : hasattrCacheConfig pr.1 = false := by
        rcases hcs pr (List.mem_cons_self _ _) with h | h | h | h
        · rw [h]; rfl
        · rw [h]; rfl
        · rw [h]; rfl
        · exact h
      cases pr with
      | mk k v =>
        simp only [runConfigWrites]
        rw [show hasattrCacheConfig k = false from hpr]
        simp only [Bool.false_eq_true, if_false]
        exact ih (fun p hp => hcs p (List.mem_cons_of_mem _ hp)) rows idx
  refine ⟨rfl, rfl, rfl, ?_⟩
  unfold update_config
  simp only [hconn, Bool.false_eq_true, if_false]
  rw [hall changes hkeys st.config 0]
  simp only []
  unfold load_config
  simp [hconn, hread]

/-- C6 witness: a concrete batch (one documented key, one bogus key)
against a store with one config row: nothing is persisted, the call
returns `True`. -/
theorem C6_witness :
    hasattrCacheConfig "similarity_threshold" = false ∧
    hasattrCacheConfig "cache_enabled" = false ∧
    hasattrCacheConfig "max_cache_entries" = false ∧
    update_config (some defaultCacheConfig) noFailures stCfg
      [("max_cache_entries", "9"), ("another_bogus", "x")] =
      (true, some (load_config_rows stCfg.config), stCfg,
       [StoreCall.configRead]) :=
  C6_update_config_never_rejects (some defaultCacheConfig) noFailures stCfg
    [("max_cache_entries", "9"), ("another_bogus", "x")] rfl rfl (by decide)

/-- C9 counterexample: the claim says every failed maintenance operation
returns a value distinguishable from success.  `update_config` does
(False vs True), but `cleanup_cache` and `populate_from_existing` return
0 on failure — exactly the value a SUCCESSFUL no-op run returns (store
within capacity; nothing left to backfill), so their failures are not
distinguishable from success. -/
theorem C9_counterexample :
    (cleanup_cache noFailures stE).1 = 0 ∧
    (cleanup_cache cleanupFailure stE).1 = 0 ∧
    (cleanup_cache connFailure stE).1 = 0 ∧
    (populate_from_existing noFailures stE).1 = 0 ∧
    (populate_from_existing populateFailure stE).1 = 0 ∧
    (populate_from_existing connFailure stE).1 = 0 := by decide

/-- C9 amended: on failure `update_config` returns `False`
(distinguishable from the success value `True`), while `cleanup_cache`
and `populate_from_existing` return 0 — a value legitimate successful
runs also return, so those two surface failure only as a
possibly-ambiguous 0. -/
theorem C9_maintenance_failure_signals (fails : Failures) (st : Store)
    (cfg : Option CacheConfig) (changes : List (String × String)) :
    ((fails.connFails = true ∨ fails.cleanupFails = true) →
      (cleanup_cache fails st).1 = 0) ∧
    ((fails.connFails = true ∨ fails.populateFails = true) →
      (populate_from_existing fails st).1 = 0) ∧
    (fails.connFails = true →
      (update_config cfg fails st changes).1 = false) := by
  refine ⟨?_, ?_, ?_⟩
  · rintro (h | h)
    · simp [cleanup_cache, h]
    · unfold cleanup_cache
      rw [h]
      split <;> simp
  · rintro (h | h)
    · simp [populate_from_existing, h]
    · unfold populate_from_existing
      rw [h]
      split <;> simp
  · intro h
    simp [update_config, h]

/-- C9 witness: with a raising connection, cleanup and populate return 0
and the config update returns `False`. -/
theorem C9_witness :
    (cleanup_cache connFailure stE).1 = 0 ∧
    (populate_from_existing connFailure stE).1 = 0 ∧
    (update_config (some defaultCacheConfig) connFailure stE []).1 =
      false := by
  obtain ⟨h1, h2, h3⟩ := C9_maintenance_failure_signals connFailure stE
    (some defaultCacheConfig) []
  exact ⟨h1 (Or.inl rfl), h2 (Or.inl rfl), h3 rfl⟩
